import Mathlib

/-
Verification of the mio memory-mapping library (vimpunk/mio).

The repository snapshot contains several historical variants of the mapping
lifecycle engine; the claims cite three of them, which are embedded here:

  * `MmapV1`     : struct detail::mmap, include/mio/detail/mmap_impl.hpp and
                   the implementation in include/mio/detail/mmap_impl.ipp.
  * `BasicMmapC` : template basic_mmap<CharT>, first variant of
                   include/mio/detail/basic_mmap.ipp (together with
                   include/mio/detail/basic_mmap.hpp).
  * `BasicMmapB` : template basic_mmap<ByteT>, second variant found in
                   src/unnamed/part_002 (the one built on memory_map and
                   mmap_context).

Modelling conventions, used uniformly:

  * The POSIX branch of every #ifdef is embedded (the Windows branch differs
    only in the syscall pair used).  INVALID_HANDLE_VALUE is -1 and handles
    are Int, as in the POSIX branch.
  * Pointers are Option Int: none is the null pointer, some a is a valid
    pointer with address a.  A successful ::mmap never yields the null
    pointer, so the data pointer produced by a successful mapping is some.
  * std::error_code is Option Errc: none means cleared, some e means the
    error e is set.  error.clear() corresponds to dropping the incoming
    value.
  * The operating system is an explicit environment record Env giving the
    outcome of each syscall a single map call can issue: the ::open return
    value, the ::fstat outcome and reported size, the ::mmap return value
    (-1 encodes MAP_FAILED) and errno.  Each Lean map function is the
    deterministic result of running the C++ function against that
    environment.
  * size_t offsets: make_page_aligned takes size_t; the int64 offset is
    converted with Int.toNat, faithful for the non-negative offsets the
    contract admits (section 4.1 of the spec requires requested_offset >= 0).
  * Paths are String; detail::empty(path) is String.isEmpty.
  * make_offset_page_aligned lives in include/mio/page.hpp which is not in
    the snapshot; see the doc comment on alignDown below.
-/

namespace Mio

/-- File handles, as in the POSIX branch (using handle_type = int). -/
abbrev Handle := Int

/-- INVALID_HANDLE_VALUE is defined to -1 on the POSIX branch. -/
def INVALID_HANDLE_VALUE : Handle := -1

/-- The error taxonomy observable through std::error_code: the two
std::errc values the engine produces itself, plus the wrapped platform
errno from last_error(). -/
inductive Errc where
  | invalid_argument
  | bad_file_descriptor
  | os_error (code : Int)
deriving DecidableEq

/-- std::error_code: none is a cleared error_code, some e a set one. -/
abbrev ErrorCode := Option Errc

/-- Outcomes of the syscalls a single map call can issue, plus the platform
page size.  This record plays the role of the operating system. -/
structure Env where
  pageSize : Nat
  openRet : Int
  fstatOk : Bool
  stSize : Int
  mmapRet : Int
  errno : Int
deriving DecidableEq

/-- last_error() on POSIX wraps errno. -/
def last_error (env : Env) : Errc := .os_error env.errno

/-- make_page_aligned from mmap_impl.ipp (size_t arithmetic):
offset / page_size_ * page_size_. -/
def make_page_aligned (pageSize : Nat) (offset : Nat) : Nat :=
  offset / pageSize * pageSize

/-- The int64 offset passed to the size_t function make_page_aligned,
converted as the C++ call converts it; faithful for offset >= 0.
The basic_mmap variants call make_offset_page_aligned from page.hpp,
which is absent from the snapshot.  Modelled from the spec: the spec
(section 4.1) defines it as floor(requested_offset / granularity) *
granularity, which is exactly make_page_aligned, so both variants share
this definition. -/
def alignDown (pageSize : Nat) (offset : Int) : Int :=
  (make_page_aligned pageSize offset.toNat : Nat)

/-- Effects of one unmap() call on the outside world: whether ::munmap was
invoked, and whether the file handle was closed with ::close. -/
structure UnmapFx where
  munmapCalled : Bool
  closedFile : Bool
deriving DecidableEq

/-! ## detail::mmap (mmap_impl.hpp / mmap_impl.ipp), called MmapV1 here -/

/-- State of struct detail::mmap: data_, length_, mapped_length_,
file_handle_ (POSIX branch, no file_mapping_handle_). -/
structure MmapV1 where
  data_ : Option Int
  length_ : Int
  mapped_length_ : Int
  file_handle_ : Handle
deriving DecidableEq

namespace MmapV1

/-- The default-constructed detail::mmap (all members have initializers). -/
def init : MmapV1 := ⟨none, 0, 0, INVALID_HANDLE_VALUE⟩

/-- mmap::is_open: file_handle_ != INVALID_HANDLE_VALUE. -/
def is_open (s : MmapV1) : Bool := s.file_handle_ != INVALID_HANDLE_VALUE

/-- mmap::is_mapped, POSIX branch: returns is_open(). -/
def is_mapped (s : MmapV1) : Bool := s.is_open

/-- mmap::empty: length() == 0. -/
def empty (s : MmapV1) : Bool := s.length_ == 0

/-- mmap::size: returns length_. -/
def size (s : MmapV1) : Int := s.length_

/-- mmap::get_mapping_start: nullptr when data_ is null, else
data_ - (mapped_length_ - length_). -/
def get_mapping_start (s : MmapV1) : Option Int :=
  match s.data_ with
  | none => none
  | some d => some (d - (s.mapped_length_ - s.length_))

/-- The private mmap::map(offset, length, mode) overload, POSIX branch:
computes the aligned offset and length_to_map, issues ::mmap, and on
success stores data_, length_ and mapped_length_. -/
def mapImpl (env : Env) (s : MmapV1) (offset length : Int) : MmapV1 × ErrorCode :=
  let aligned := alignDown env.pageSize offset
  let length_to_map := offset - aligned + length
  if env.mmapRet == -1 then
    (s, some (last_error env))
  else
    ({ s with data_ := some (env.mmapRet + offset - aligned),
              length_ := length,
              mapped_length_ := length_to_map }, none)

/-- mmap::map(handle, offset, length, mode, error): clears the error,
rejects the invalid handle sentinel, then assigns file_handle_ = handle,
queries the file size, checks offset + length > file_size, and finally
delegates to the private map overload. -/
def mapHandle (env : Env) (s : MmapV1) (handle offset length : Int) :
    MmapV1 × ErrorCode :=
  if handle == INVALID_HANDLE_VALUE then
    (s, some .bad_file_descriptor)
  else
    let s1 : MmapV1 := { s with file_handle_ := handle }
    if !env.fstatOk then
      (s1, some (last_error env))
    else
      let file_size := env.stSize
      if offset + length > file_size then
        (s1, some .invalid_argument)
      else
        mapImpl env s1 offset length

/-- mmap::map(path, offset, length, mode, error): acts only when the path
is non-empty and the object is not open; otherwise it returns leaving the
caller-supplied error_code untouched.  The private mmap::open_file sets the
error only when ::open returns -1. -/
def mapPath (env : Env) (s : MmapV1) (path : String) (offset length : Int)
    (errIn : ErrorCode) : MmapV1 × ErrorCode :=
  if !path.isEmpty && !s.is_open then
    if env.openRet == INVALID_HANDLE_VALUE then
      (s, some (last_error env))
    else
      mapHandle env s env.openRet offset length
  else
    (s, errIn)

/-- mmap::unmap: calls ::munmap only when both data_ is non-null and
file_handle_ is valid, never closes the file handle, and always resets the
four fields to their defaults. -/
def unmap (s : MmapV1) : MmapV1 × UnmapFx :=
  (init,
   { munmapCalled := s.data_.isSome && s.file_handle_ != INVALID_HANDLE_VALUE,
     closedFile := false })

end MmapV1

/-! ## Shared state of the basic_mmap variants -/

/-- State of basic_mmap (both the CharT variant of basic_mmap.hpp and the
ByteT variant of part_002 have these members; POSIX branch, so no
file_mapping_handle_).  The C++ member is_handle_internal_ has no
initializer, so the default-constructed value of that member is
indeterminate; the embedding makes the initial value an explicit
parameter. -/
structure BMState where
  data_ : Option Int
  length_ : Int
  mapped_length_ : Int
  file_handle_ : Handle
  is_handle_internal_ : Bool
deriving DecidableEq

namespace BMState

/-- A default-constructed basic_mmap whose indeterminate ownership flag
happens to hold b. -/
def initWith (b : Bool) : BMState :=
  ⟨none, 0, 0, INVALID_HANDLE_VALUE, b⟩

/-- basic_mmap::is_open: file_handle_ != INVALID_HANDLE_VALUE. -/
def is_open (s : BMState) : Bool := s.file_handle_ != INVALID_HANDLE_VALUE

/-- basic_mmap::is_mapped, POSIX branch: returns is_open(). -/
def is_mapped (s : BMState) : Bool := s.is_open

/-- basic_mmap::empty: length() == 0. -/
def empty (s : BMState) : Bool := s.length_ == 0

/-- basic_mmap::size / length: the requested length. -/
def size (s : BMState) : Int := s.length_

/-- basic_mmap::offset (basic_mmap.hpp): mapped_length_ - length_. -/
def offset (s : BMState) : Int := s.mapped_length_ - s.length_

/-- basic_mmap::unmap, identical in the CharT variant
(basic_mmap.ipp, first variant) and the ByteT variant (part_002):
early return when not open; otherwise ::munmap when data_ is non-null,
::close exactly when is_handle_internal_, then reset data_, the two
lengths and file_handle_ to their defaults.  is_handle_internal_ is not
reset. -/
def unmap (s : BMState) : BMState × UnmapFx :=
  if !s.is_open then
    (s, { munmapCalled := false, closedFile := false })
  else
    ({ s with data_ := none, length_ := 0, mapped_length_ := 0,
              file_handle_ := INVALID_HANDLE_VALUE },
     { munmapCalled := s.data_.isSome, closedFile := s.is_handle_internal_ })

end BMState

/-- enum map_entire_file = 0 (basic_mmap.hpp line 40). -/
def map_entire_file : Int := 0

/-- The free open_file of basic_mmap.ipp: clears the error, reports
invalid_argument for an empty path, then issues ::open and reports
last_error when the result is the invalid handle. -/
def open_file (env : Env) (path : String) : Handle × ErrorCode :=
  if path.isEmpty then
    (INVALID_HANDLE_VALUE, some .invalid_argument)
  else if env.openRet == INVALID_HANDLE_VALUE then
    (env.openRet, some (last_error env))
  else
    (env.openRet, none)

/-- The free query_file_size of basic_mmap.ipp: clears the error and
issues ::fstat; on failure it sets last_error and returns 0. -/
def query_file_size (env : Env) : Int × ErrorCode :=
  if !env.fstatOk then (0, some (last_error env)) else (env.stSize, none)

namespace BasicMmapC

/-- The private basic_mmap<CharT>::map(offset, num_bytes, mode, error):
page-aligns the offset, issues ::mmap, and on success stores data_,
num_bytes_ and num_mapped_bytes_. -/
def mapImpl (env : Env) (s : BMState) (offset num_bytes : Int) :
    BMState × ErrorCode :=
  let aligned := alignDown env.pageSize offset
  let num_bytes_to_map := offset - aligned + num_bytes
  if env.mmapRet == -1 then
    (s, some (last_error env))
  else
    ({ s with data_ := some (env.mmapRet + offset - aligned),
              length_ := num_bytes,
              mapped_length_ := num_bytes_to_map }, none)

/-- basic_mmap<CharT>::map(handle, offset, num_bytes, mode, error): clears
the error, rejects the invalid handle, queries the file size, widens the
map_entire_file sentinel (num_bytes <= 0) to the file size, otherwise
checks offset + num_bytes > file_size, then records file_handle_ = handle
and is_handle_internal_ = false before the private map overload runs. -/
def mapHandle (env : Env) (s : BMState) (handle offset num_bytes : Int) :
    BMState × ErrorCode :=
  if handle == INVALID_HANDLE_VALUE then
    (s, some .bad_file_descriptor)
  else
    match query_file_size env with
    | (_, some e) => (s, some e)
    | (file_size, none) =>
      if num_bytes ≤ map_entire_file then
        mapImpl env
          { s with file_handle_ := handle, is_handle_internal_ := false }
          offset file_size
      else if offset + num_bytes > file_size then
        (s, some .invalid_argument)
      else
        mapImpl env
          { s with file_handle_ := handle, is_handle_internal_ := false }
          offset num_bytes

/-- basic_mmap<CharT>::map(path, offset, num_bytes, mode, error): clears
the error, rejects an empty path with invalid_argument, and acts only when
not already open: open the file, and unless opening failed call the handle
overload, then set is_handle_internal_ = true (even when that overload
failed).  When already open the function returns with the error cleared
and state untouched. -/
def mapPath (env : Env) (s : BMState) (path : String) (offset num_bytes : Int) :
    BMState × ErrorCode :=
  if path.isEmpty then
    (s, some .invalid_argument)
  else if !s.is_open then
    match open_file env path with
    | (_, some e) => (s, some e)
    | (handle, none) =>
      let r := mapHandle env s handle offset num_bytes
      ({ r.fst with is_handle_internal_ := true }, r.snd)
  else
    (s, none)

end BasicMmapC

/-! ## basic_mmap<ByteT> (src/unnamed/part_002), called BasicMmapB here -/

/-- detail::mmap_context of part_002 (POSIX branch). -/
structure MmapContext where
  data : Int
  length : Int
  mapped_length : Int
deriving DecidableEq

namespace BasicMmapB

/-- detail::memory_map of part_002: page-aligns the offset, issues ::mmap,
and on success returns the context holding the user-visible data pointer,
the requested length and the mapped length. -/
def memory_map (env : Env) (offset length : Int) : Except Errc MmapContext :=
  let aligned := alignDown env.pageSize offset
  let length_to_map := offset - aligned + length
  if env.mmapRet == -1 then
    .error (last_error env)
  else
    .ok ⟨env.mmapRet + offset - aligned, length, length_to_map⟩

/-- basic_mmap<ByteT>::map(handle, offset, length, mode, error): clears the
error, rejects the invalid handle, queries the file size, widens the
map_entire_file sentinel, checks the bounds, calls memory_map, and only on
success unmaps the previous mapping and installs the new state. -/
def mapHandle (env : Env) (s : BMState) (handle offset length : Int) :
    BMState × ErrorCode :=
  if handle == INVALID_HANDLE_VALUE then
    (s, some .bad_file_descriptor)
  else
    match query_file_size env with
    | (_, some e) => (s, some e)
    | (file_size, none) =>
      let proceed : Int → BMState × ErrorCode := fun len =>
        match memory_map env offset len with
        | .error e => (s, some e)
        | .ok ctx =>
          let s1 := (BMState.unmap s).fst
          ({ s1 with file_handle_ := handle, is_handle_internal_ := false,
                     data_ := some ctx.data, length_ := ctx.length,
                     mapped_length_ := ctx.mapped_length }, none)
      if length ≤ map_entire_file then
        proceed file_size
      else if offset + length > file_size then
        (s, some .invalid_argument)
      else
        proceed length

/-- basic_mmap<ByteT>::map(path, offset, length, mode, error): clears the
error, rejects an empty path, opens the file, calls the handle overload,
and sets is_handle_internal_ = true only when no error occurred. -/
def mapPath (env : Env) (s : BMState) (path : String) (offset length : Int) :
    BMState × ErrorCode :=
  if path.isEmpty then
    (s, some .invalid_argument)
  else
    match open_file env path with
    | (_, some e) => (s, some e)
    | (handle, none) =>
      match mapHandle env s handle offset length with
      | (s1, none) => ({ s1 with is_handle_internal_ := true }, none)
      | (s1, some e) => (s1, some e)

end BasicMmapB

/-! ## Comparison operators -/

/-- Address held by a possibly-null pointer; the null pointer has address
0, as in C++. -/
def addrOf : Option Int → Int
  | none => 0
  | some a => a

/-- Byte-wise equality of the n bytes starting at p and at q in memory
mem, the shape of std::equal(a.begin(), a.end(), b.begin()). -/
def rangeEqB (mem : Int → Nat) (p q : Int) : Nat → Bool
  | 0 => true
  | n + 1 => (mem p == mem q) && rangeEqB mem (p + 1) (q + 1) n

/-- operator==(const mmap&, const mmap&) of mmap_impl.ipp: when both sides
are mapped, compare sizes and then the bytes with std::equal; otherwise
equal exactly when neither is mapped. -/
def mmapV1Eq (mem : Int → Nat) (a b : MmapV1) : Bool :=
  if a.is_mapped && b.is_mapped then
    a.size == b.size && rangeEqB mem (addrOf a.data_) (addrOf b.data_) a.size.toNat
  else
    !a.is_mapped && !b.is_mapped

/-- operator==(const basic_mmap<CharT>&, ...) of basic_mmap.ipp (first
variant) and operator==(const basic_mmap<ByteT>&, ...) of part_002:
a.data() == b.data() && a.size() == b.size(), a pointer comparison. -/
def basicMmapEq (a b : BMState) : Bool :=
  a.data_ == b.data_ && a.length_ == b.length_

/-- CharTraits::compare over n bytes: sign of the first mismatch, 0 when
the ranges agree (the behavior of std::char_traits::compare). -/
def traitsCompare (mem : Int → Nat) (p q : Int) : Nat → Int
  | 0 => 0
  | n + 1 =>
    if mem p < mem q then -1
    else if mem q < mem p then 1
    else traitsCompare mem (p + 1) (q + 1) n

/-- operator==(const basic_mmap<CharT, CharTraits>&, ...) of basic_mmap.ipp
(second variant): a.size() == b.size() &&
CharTraits::compare(a.data(), b.data(), a.size()) == 0. -/
def traitsMmapEq (mem : Int → Nat) (a b : BMState) : Bool :=
  a.length_ == b.length_ &&
    traitsCompare mem (addrOf a.data_) (addrOf b.data_) a.length_.toNat == 0

/-- Modelled from the spec: the visible byte ranges of the two mappings
are bit-identical, i.e. same length and the same bytes.  This is the
claim-side notion of equality that C8 asserts the operators implement. -/
def contentIdentical (mem : Int → Nat) (a b : BMState) : Prop :=
  a.length_ = b.length_ ∧
    ∀ i : Nat, i < a.length_.toNat →
      mem (addrOf a.data_ + i) = mem (addrOf b.data_ + i)

instance (mem : Int → Nat) (a b : BMState) :
    Decidable (contentIdentical mem a b) := by
  unfold contentIdentical
  infer_instance

/-! ## Reachable states of the basic_mmap of part_002 -/

/-- States a basic_mmap<ByteT> (part_002) instance can reach through the
public interface: default construction (with an arbitrary value of the
uninitialized ownership flag), the two map overloads against any operating
system behavior with a fixed page size g and a non-negative offset, unmap,
and being moved from (the move constructor resets everything except the
ownership flag).  sync does not change the state, move assignment
transfers a reachable state unchanged, and swap exchanges two reachable
states, so none of them adds states. -/
inductive ReachableB (g : Nat) : BMState → Prop where
  | init (b : Bool) : ReachableB g (BMState.initWith b)
  | mapHandle (env : Env) (s : BMState) (handle offset length : Int)
      (hs : ReachableB g s) (hg : env.pageSize = g) (hoff : 0 ≤ offset) :
      ReachableB g (BasicMmapB.mapHandle env s handle offset length).fst
  | mapPath (env : Env) (s : BMState) (path : String) (offset length : Int)
      (hs : ReachableB g s) (hg : env.pageSize = g) (hoff : 0 ≤ offset) :
      ReachableB g (BasicMmapB.mapPath env s path offset length).fst
  | unmap (s : BMState) (hs : ReachableB g s) :
      ReachableB g (BMState.unmap s).fst
  | movedFrom (s : BMState) (hs : ReachableB g s) :
      ReachableB g { s with data_ := none, length_ := 0, mapped_length_ := 0,
                            file_handle_ := INVALID_HANDLE_VALUE }

/-! ## Arithmetic facts about the alignment resolver -/

theorem alignDown_eq_ediv_mul (g : Nat) (offset : Int) (h : 0 ≤ offset) :
    alignDown g offset = offset / (g : Int) * (g : Int) := by
  unfold alignDown make_page_aligned
  push_cast
  rw [Int.toNat_of_nonneg h]

theorem alignDown_le (g : Nat) (offset : Int) (h : 0 ≤ offset) :
    alignDown g offset ≤ offset := by
  unfold alignDown make_page_aligned
  calc ((offset.toNat / g * g : Nat) : Int) ≤ (offset.toNat : Int) := by
        exact_mod_cast Nat.div_mul_le_self offset.toNat g
    _ = offset := Int.toNat_of_nonneg h

theorem sub_alignDown_lt (g : Nat) (hg : 0 < g) (offset : Int) (h : 0 ≤ offset) :
    offset - alignDown g offset < g := by
  rw [alignDown_eq_ediv_mul g offset h]
  have hg' : (0 : Int) < g := by exact_mod_cast hg
  have := Int.emod_lt_of_pos offset hg'
  have hdef : offset % (g : Int) = offset - (g : Int) * (offset / (g : Int)) :=
    Int.emod_def offset g
  rw [mul_comm] at hdef
  omega

theorem sub_alignDown_nonneg (g : Nat) (offset : Int) (h : 0 ≤ offset) :
    0 ≤ offset - alignDown g offset := by
  have := alignDown_le g offset h
  omega

theorem alignDown_of_dvd (g : Nat) (offset : Int) (h : 0 ≤ offset)
    (hd : (g : Int) ∣ offset) : alignDown g offset = offset := by
  rw [alignDown_eq_ediv_mul g offset h]
  exact Int.ediv_mul_cancel hd

/-! ## Helper lemmas for the basic_mmap (part_002) state machine -/

/-- The invariant of claim C6, for the basic_mmap of part_002: the data
pointer is null exactly when the mapping is unestablished, and the
difference between mapped and requested length (the alignment remainder)
is non-negative and below the page size. -/
def BInv (g : Nat) (s : BMState) : Prop :=
  (s.data_ = none ↔ s.is_open = false) ∧
    0 ≤ s.mapped_length_ - s.length_ ∧
    s.mapped_length_ - s.length_ < (g : Int)

theorem mapHandleB_fst_cases (env : Env) (s : BMState)
    (handle offset length : Int) :
    (BasicMmapB.mapHandle env s handle offset length).fst = s ∨
    (handle ≠ INVALID_HANDLE_VALUE ∧ env.mmapRet ≠ -1 ∧ ∃ len : Int,
      (BasicMmapB.mapHandle env s handle offset length).fst =
        ⟨some (env.mmapRet + offset - alignDown env.pageSize offset), len,
         offset - alignDown env.pageSize offset + len, handle, false⟩) := by
  unfold BasicMmapB.mapHandle
  by_cases h1 : handle = INVALID_HANDLE_VALUE
  · simp [h1]
  · simp only [beq_iff_eq, h1, if_false]
    rcases hq : query_file_size env with ⟨fs, e⟩
    cases e with
    | some err => simp
    | none =>
      simp only []
      by_cases h2 : length ≤ map_entire_file
      · simp only [h2, if_true]
        unfold BasicMmapB.memory_map
        by_cases h3 : env.mmapRet = -1
        · simp [h3]
        · simp only [beq_iff_eq, h3, if_false]
          right
          exact ⟨h1, h3, fs, rfl⟩
      · simp only [h2, if_false]
        by_cases h4 : offset + length > fs
        · simp [h4]
        · simp only [h4, if_false]
          unfold BasicMmapB.memory_map
          by_cases h3 : env.mmapRet = -1
          · simp [h3]
          · simp only [beq_iff_eq, h3, if_false]
            right
            exact ⟨h1, h3, length, rfl⟩

theorem mapPathB_fst_cases (env : Env) (s : BMState) (path : String)
    (offset length : Int) :
    (BasicMmapB.mapPath env s path offset length).fst = s ∨
    (BasicMmapB.mapPath env s path offset length).fst =
      (BasicMmapB.mapHandle env s env.openRet offset length).fst ∨
    (BasicMmapB.mapPath env s path offset length).fst =
      { (BasicMmapB.mapHandle env s env.openRet offset length).fst with
          is_handle_internal_ := true } := by
  unfold BasicMmapB.mapPath
  by_cases h1 : path.isEmpty
  · simp [h1]
  · simp only [h1, if_false]
    unfold open_file
    simp only [h1, if_false]
    by_cases h2 : env.openRet = INVALID_HANDLE_VALUE
    · simp [h2]
    · simp only [beq_iff_eq, h2, if_false]
      rcases hr : BasicMmapB.mapHandle env s env.openRet offset length
        with ⟨s1, e⟩
      cases e with
      | none => right; right; simp [hr]
      | some err => right; left; simp [hr]

theorem binv_mapHandleB (g : Nat) (hg : 0 < g) (env : Env) (s : BMState)
    (handle offset length : Int) (hpg : env.pageSize = g) (hoff : 0 ≤ offset)
    (h : BInv g s) :
    BInv g (BasicMmapB.mapHandle env s handle offset length).fst := by
  rcases mapHandleB_fst_cases env s handle offset length with hc | ⟨hh, _, len, hc⟩
  · rw [hc]; exact h
  · rw [hc]
    refine ⟨?_, ?_, ?_⟩
    · constructor
      · intro hfalse; cases hfalse
      · intro hopen
        exfalso
        simp only [BMState.is_open, bne_iff_ne] at hopen
        exact hh (by simpa using hopen)
    · simp only []
      have := sub_alignDown_nonneg env.pageSize offset hoff
      omega
    · simp only []
      have := sub_alignDown_lt env.pageSize (hpg ▸ hg) offset hoff
      rw [hpg] at this ⊢
      omega

theorem binv_mapPathB (g : Nat) (hg : 0 < g) (env : Env) (s : BMState)
    (path : String) (offset length : Int) (hpg : env.pageSize = g)
    (hoff : 0 ≤ offset) (h : BInv g s) :
    BInv g (BasicMmapB.mapPath env s path offset length).fst := by
  have hmh := binv_mapHandleB g hg env s env.openRet offset length hpg hoff h
  rcases mapPathB_fst_cases env s path offset length with hc | hc | hc
  · rw [hc]; exact h
  · rw [hc]; exact hmh
  · rw [hc]
    rcases hmh with ⟨h1, h2, h3⟩
    exact ⟨h1, h2, h3⟩

theorem binv_unmap (g : Nat) (hg : 0 < g) (s : BMState) (h : BInv g s) :
    BInv g (BMState.unmap s).fst := by
  unfold BMState.unmap
  by_cases ho : s.is_open
  · simp only [ho, Bool.not_true, if_false]
    refine ⟨by simp [BMState.is_open, INVALID_HANDLE_VALUE], by simp, ?_⟩
    simpa using hg
  · simp only [Bool.not_eq_true] at ho
    simp only [ho, Bool.not_false, if_true]
    exact h

theorem binv_reachable (g : Nat) (hg : 0 < g) (s : BMState)
    (hs : ReachableB g s) : BInv g s := by
  induction hs with
  | init b =>
    refine ⟨by simp [BMState.initWith, BMState.is_open, INVALID_HANDLE_VALUE],
      by simp [BMState.initWith], ?_⟩
    simpa [BMState.initWith] using hg
  | mapHandle env s handle offset length hs hgp hoff ih =>
    exact binv_mapHandleB g hg env s handle offset length hgp hoff ih
  | mapPath env s path offset length hs hgp hoff ih =>
    exact binv_mapPathB g hg env s path offset length hgp hoff ih
  | unmap s hs ih => exact binv_unmap g hg s ih
  | movedFrom s hs ih =>
    refine ⟨by simp [BMState.is_open, INVALID_HANDLE_VALUE], by simp, ?_⟩
    simpa using hg

/-! ## Helper lemma for CharTraits::compare -/

theorem traitsCompare_eq_zero_iff (mem : Int → Nat) :
    ∀ (n : Nat) (p q : Int), traitsCompare mem p q n = 0 ↔
      ∀ i : Nat, i < n → mem (p + i) = mem (q + i) := by
  intro n
  induction n with
  | zero => intro p q; simp [traitsCompare]
  | succ m ih =>
    intro p q
    unfold traitsCompare
    by_cases h1 : mem p < mem q
    · simp only [h1, if_true]
      constructor
      · intro hfalse; cases hfalse
      · intro hall
        have := hall 0 (Nat.succ_pos m)
        simp at this
        omega
    · simp only [h1, if_false]
      by_cases h2 : mem q < mem p
      · simp only [h2, if_true]
        constructor
        · intro hfalse; cases hfalse
        · intro hall
          have := hall 0 (Nat.succ_pos m)
          simp at this
          omega
      · simp only [h2, if_false]
        have heq : mem p = mem q := by omega
        rw [ih (p + 1) (q + 1)]
        constructor
        · intro hall i hi
          cases i with
          | zero => simpa using heq
          | succ j =>
            have := hall j (by omega)
            have e1 : p + 1 + (j : Int) = p + ((j + 1 : Nat) : Int) := by
              push_cast; ring
            have e2 : q + 1 + (j : Int) = q + ((j + 1 : Nat) : Int) := by
              push_cast; ring
            rw [e1, e2] at this
            exact this
        · intro hall j hj
          have := hall (j + 1) (by omega)
          have e1 : p + 1 + (j : Int) = p + ((j + 1 : Nat) : Int) := by
            push_cast; ring
          have e2 : q + 1 + (j : Int) = q + ((j + 1 : Nat) : Int) := by
            push_cast; ring
          rw [e1, e2]
          exact this

/-! ## Concrete inputs used by the counterexamples -/

/-- A non-empty path used by concrete runs. -/
def pathA : String := "a"

/-- The empty path. -/
def pathNone : String := ""

/-! ## Claims -/

/-- C1: the claim states that a failed map call leaves the object exactly
as before.  The code violates it: mmap::map(handle, ...) of mmap_impl.ipp
assigns file_handle_ = handle before the file-size query and the bounds
check, so the run below (file of size 4, offset 2, length 3, a valid
handle 3) reports invalid_argument yet leaves the object with
file_handle_ = 3 and is_open() = true, different from the state before
the call. -/
theorem claim_C1_failed_map_mutates_state :
    (MmapV1.mapHandle ⟨4096, 0, true, 4, 1000, 7⟩ MmapV1.init 3 2 3).snd =
      some .invalid_argument ∧
    MmapV1.init.is_open = false ∧
    (MmapV1.mapHandle ⟨4096, 0, true, 4, 1000, 7⟩ MmapV1.init 3 2 3).fst.file_handle_ = 3 ∧
    (MmapV1.mapHandle ⟨4096, 0, true, 4, 1000, 7⟩ MmapV1.init 3 2 3).fst.is_open = true ∧
    (MmapV1.mapHandle ⟨4096, 0, true, 4, 1000, 7⟩ MmapV1.init 3 2 3).fst ≠ MmapV1.init := by
  decide

/-- C2: the claim states that mapping with the map-entire-file sentinel
yields length() = file_size - offset.  Both cited variants instead execute
length = file_size: with a file of 16134 bytes, page size 4096 and offset
4093 (the scenario of the test suite, which asserts size() ==
buffer.size() - offset), the call succeeds with length() = 16134 rather
than 16134 - 4093 = 12041, in the CharT variant of basic_mmap.ipp and in
the ByteT variant of part_002 alike. -/
theorem claim_C2_sentinel_length_is_file_size :
    (BasicMmapC.mapHandle ⟨4096, 0, true, 16134, 1228800, 7⟩
        (BMState.initWith false) 3 4093 0).snd = none ∧
    (BasicMmapC.mapHandle ⟨4096, 0, true, 16134, 1228800, 7⟩
        (BMState.initWith false) 3 4093 0).fst.length_ = 16134 ∧
    ¬((BasicMmapC.mapHandle ⟨4096, 0, true, 16134, 1228800, 7⟩
        (BMState.initWith false) 3 4093 0).fst.length_ = 16134 - 4093) ∧
    (BasicMmapB.mapHandle ⟨4096, 0, true, 16134, 1228800, 7⟩
        (BMState.initWith false) 3 4093 0).snd = none ∧
    (BasicMmapB.mapHandle ⟨4096, 0, true, 16134, 1228800, 7⟩
        (BMState.initWith false) 3 4093 0).fst.length_ = 16134 := by
  decide

/-- C3: the claim states that an offset + length overrun fails with
invalid_argument and leaves the object empty and not mapped.  The run
below (file of size 4, offset 400, length 4 against the detail::mmap of
mmap_impl.ipp) reports invalid_argument and leaves empty() = true, but
file_handle_ was already recorded, so is_open() and (on POSIX)
is_mapped() are true afterwards, contradicting the claim and the
assertion !m.is_open() of the test suite for this very scenario. -/
theorem claim_C3_overrun_leaves_open_state :
    (MmapV1.mapHandle ⟨4096, 0, true, 4, 1000, 7⟩ MmapV1.init 3 400 4).snd =
      some .invalid_argument ∧
    (MmapV1.mapHandle ⟨4096, 0, true, 4, 1000, 7⟩ MmapV1.init 3 400 4).fst.empty = true ∧
    (MmapV1.mapHandle ⟨4096, 0, true, 4, 1000, 7⟩ MmapV1.init 3 400 4).fst.is_mapped = true ∧
    (MmapV1.mapHandle ⟨4096, 0, true, 4, 1000, 7⟩ MmapV1.init 3 400 4).fst.is_open = true := by
  decide

/-- C4: the alignment resolver computes aligned_offset =
floor(requested_offset / granularity) * granularity and length_to_map =
(requested_offset - aligned_offset) + requested_length, the visible data
pointer is mapping_start + (requested_offset - aligned_offset), and an
already aligned offset gets zero adjustment; stated over make_page_aligned
and the private map overload of mmap_impl.ipp. -/
theorem claim_C4_alignment_resolver (g : Nat) (env : Env) (s : MmapV1)
    (offset length : Int) (hpg : env.pageSize = g)
    (hoff : 0 ≤ offset) (hok : env.mmapRet ≠ -1) :
    alignDown g offset = offset / (g : Int) * (g : Int) ∧
    (MmapV1.mapImpl env s offset length).fst.mapped_length_ =
      (offset - alignDown g offset) + length ∧
    (MmapV1.mapImpl env s offset length).fst.data_ =
      some (env.mmapRet + (offset - alignDown g offset)) ∧
    ((g : Int) ∣ offset →
      alignDown g offset = offset ∧ offset - alignDown g offset = 0) := by
  refine ⟨alignDown_eq_ediv_mul g offset hoff, ?_, ?_, ?_⟩
  · unfold MmapV1.mapImpl
    simp only [beq_iff_eq, hok, if_false, hpg]
  · unfold MmapV1.mapImpl
    simp only [beq_iff_eq, hok, if_false, hpg]
    congr 1
    ring
  · intro hd
    have h := alignDown_of_dvd g offset hoff hd
    exact ⟨h, by omega⟩

/-- C4 witness: the resolver theorem applied at granularity 4, offset 6,
length 3 and a successful mapping at address 1000. -/
theorem claim_C4_alignment_resolver_witness :
    alignDown 4 6 = 6 / (4 : Int) * (4 : Int) ∧
    (MmapV1.mapImpl ⟨4, 0, true, 10, 1000, 7⟩ MmapV1.init 6 3).fst.mapped_length_ =
      (6 - alignDown 4 6) + 3 ∧
    (MmapV1.mapImpl ⟨4, 0, true, 10, 1000, 7⟩ MmapV1.init 6 3).fst.data_ =
      some (1000 + (6 - alignDown 4 6)) ∧
    ((4 : Int) ∣ 6 → alignDown 4 6 = 6 ∧ (6 : Int) - alignDown 4 6 = 0) :=
  claim_C4_alignment_resolver 4 ⟨4, 0, true, 10, 1000, 7⟩ MmapV1.init 6 3
    rfl (by decide) (by decide)

/-- C5 counterexample: the claim states that every map call with an empty
path fails with an invalid_argument error.  mmap::map(path, ...) of
mmap_impl.ipp instead returns silently: with an empty path and a cleared
incoming error_code the call reports no error at all. -/
theorem claim_C5_counterexample :
    pathNone.isEmpty = true ∧
    MmapV1.mapPath ⟨4096, 0, true, 4, 1000, 7⟩ MmapV1.init pathNone 0 0 none =
      (MmapV1.init, none) := by
  decide

/-- C5 amended: in the basic_mmap variants an empty path fails with
invalid_argument and leaves the state untouched, while the detail::mmap
variant silently ignores it; the invalid-handle sentinel fails with
bad_file_descriptor in every variant with the state untouched; and a
default-constructed object satisfies empty() = true and is_open() =
false, so those postconditions hold after the failing calls. -/
theorem claim_C5_amended :
    (∀ (env : Env) (s : BMState) (offset num_bytes : Int),
      BasicMmapC.mapPath env s pathNone offset num_bytes =
        (s, some .invalid_argument)) ∧
    (∀ (env : Env) (s : BMState) (offset length : Int),
      BasicMmapB.mapPath env s pathNone offset length =
        (s, some .invalid_argument)) ∧
    (∀ (env : Env) (b : Bool) (offset num_bytes : Int),
      BasicMmapC.mapHandle env (BMState.initWith b) INVALID_HANDLE_VALUE
        offset num_bytes = (BMState.initWith b, some .bad_file_descriptor)) ∧
    (∀ (env : Env) (offset length : Int),
      MmapV1.mapHandle env MmapV1.init INVALID_HANDLE_VALUE offset length =
        (MmapV1.init, some .bad_file_descriptor)) ∧
    (∀ b : Bool,
      (BMState.initWith b).empty = true ∧ (BMState.initWith b).is_open = false) ∧
    MmapV1.init.empty = true ∧ MmapV1.init.is_open = false := by
  refine ⟨?_, ?_, ?_, ?_, ?_, by decide, by decide⟩
  · intro env s offset num_bytes; rfl
  · intro env s offset length; rfl
  · intro env b offset num_bytes; rfl
  · intro env offset length; rfl
  · intro b; exact ⟨rfl, rfl⟩

/-- C6 counterexample: the claim states data == nullptr iff the mapping is
unestablished.  After a failed bounds check, the detail::mmap of
mmap_impl.ipp holds a null data pointer together with is_open() = true,
so the equivalence fails in a reachable state. -/
theorem claim_C6_counterexample :
    (MmapV1.mapHandle ⟨4096, 0, true, 4, 1000, 7⟩ MmapV1.init 3 400 4).fst.data_ = none ∧
    (MmapV1.mapHandle ⟨4096, 0, true, 4, 1000, 7⟩ MmapV1.init 3 400 4).fst.is_open = true := by
  decide

/-- C6 amended: in the basic_mmap of part_002 every state reachable
through default construction, the map overloads, unmap and moves satisfies
data == nullptr iff is_open() = false, and mapped_length - requested
length is non-negative and below the page size; moreover every successful
memory_map yields a data pointer whose offset from the mapping start
equals mapped_length - length. -/
theorem claim_C6_amended (g : Nat) (s : BMState) (hg : 0 < g)
    (hs : ReachableB g s) :
    ((s.data_ = none ↔ s.is_open = false) ∧
      0 ≤ s.mapped_length_ - s.length_ ∧
      s.mapped_length_ - s.length_ < (g : Int)) ∧
    ∀ (env : Env) (offset length : Int) (ctx : MmapContext),
      BasicMmapB.memory_map env offset length = .ok ctx →
      ctx.data - env.mmapRet = ctx.mapped_length - ctx.length := by
  refine ⟨binv_reachable g hg s hs, ?_⟩
  intro env offset length ctx hok
  unfold BasicMmapB.memory_map at hok
  by_cases h : env.mmapRet = -1
  · simp [h] at hok
  · simp only [beq_iff_eq, h, if_false, Except.ok.injEq] at hok
    rw [← hok]
    ring

/-- C6 witness: the invariant theorem applied to the default-constructed
state with page size 4. -/
theorem claim_C6_amended_witness :
    (((BMState.initWith false).data_ = none ↔
        (BMState.initWith false).is_open = false) ∧
      0 ≤ (BMState.initWith false).mapped_length_ - (BMState.initWith false).length_ ∧
      (BMState.initWith false).mapped_length_ - (BMState.initWith false).length_ < (4 : Int)) ∧
    ∀ (env : Env) (offset length : Int) (ctx : MmapContext),
      BasicMmapB.memory_map env offset length = .ok ctx →
      ctx.data - env.mmapRet = ctx.mapped_length - ctx.length :=
  claim_C6_amended 4 (BMState.initWith false) (by decide) (ReachableB.init false)

/-- C7 counterexample: the claim states that unmap closes the file handle
exactly when it was obtained internally from a path.  In the run below the
detail::mmap of mmap_impl.ipp maps through its path overload (so the
handle, 3, was opened internally), yet unmap reports no ::close at all:
the variant never closes the file handle. -/
theorem claim_C7_counterexample :
    (MmapV1.mapPath ⟨4096, 3, true, 4, 1000, 7⟩ MmapV1.init pathA 0 4 none).snd = none ∧
    (MmapV1.mapPath ⟨4096, 3, true, 4, 1000, 7⟩ MmapV1.init pathA 0 4 none).fst.is_open = true ∧
    (MmapV1.unmap (MmapV1.mapPath ⟨4096, 3, true, 4, 1000, 7⟩
        MmapV1.init pathA 0 4 none).fst).snd.munmapCalled = true ∧
    (MmapV1.unmap (MmapV1.mapPath ⟨4096, 3, true, 4, 1000, 7⟩
        MmapV1.init pathA 0 4 none).fst).snd.closedFile = false := by
  decide

/-- C7 amended: unmap of the basic_mmap variants is a no-op when not open;
when open it unmaps exactly when data_ is non-null, closes the file handle
exactly when is_handle_internal_ is set, and resets the data pointer,
both lengths and the file handle (the ownership flag keeps its value), so
that afterwards is_open() is false, data() is null and the lengths are
zero; a second unmap is a no-op.  The detail::mmap variant resets its
fields but never closes the file handle. -/
theorem claim_C7_amended (s : BMState) (t : MmapV1) :
    (s.is_open = false → BMState.unmap s = (s, ⟨false, false⟩)) ∧
    (s.is_open = true →
      (BMState.unmap s).fst =
        ⟨none, 0, 0, INVALID_HANDLE_VALUE, s.is_handle_internal_⟩ ∧
      (BMState.unmap s).snd.munmapCalled = s.data_.isSome ∧
      (BMState.unmap s).snd.closedFile = s.is_handle_internal_) ∧
    (BMState.unmap s).fst.is_open = false ∧
    BMState.unmap (BMState.unmap s).fst = ((BMState.unmap s).fst, ⟨false, false⟩) ∧
    (MmapV1.unmap t).fst = MmapV1.init ∧
    (MmapV1.unmap t).snd.closedFile = false := by
  by_cases h : s.is_open = true
  · have hreset : BMState.unmap s =
        (⟨none, 0, 0, INVALID_HANDLE_VALUE, s.is_handle_internal_⟩,
         ⟨s.data_.isSome, s.is_handle_internal_⟩) := by
      unfold BMState.unmap
      simp only [h, Bool.not_true, Bool.false_eq_true, if_false]
    refine ⟨?_, ?_, ?_, ?_, rfl, rfl⟩
    · intro hc
      rw [h] at hc
      exact Bool.noConfusion hc
    · intro _
      rw [hreset]
      exact ⟨rfl, rfl, rfl⟩
    · rw [hreset]
      rfl
    · rw [hreset]
      unfold BMState.unmap
      simp [BMState.is_open, INVALID_HANDLE_VALUE]
  · have h0 : s.is_open = false := by
      cases hh : s.is_open
      · rfl
      · exact absurd hh h
    have hnoop : BMState.unmap s = (s, ⟨false, false⟩) := by
      unfold BMState.unmap
      simp only [h0, Bool.not_false, if_true]
    refine ⟨?_, ?_, ?_, ?_, rfl, rfl⟩
    · intro _
      exact hnoop
    · intro hc
      rw [hc] at h0
      exact Bool.noConfusion h0
    · rw [hnoop]
      exact h0
    · rw [hnoop]
      exact hnoop

/-- C7 witness: the amended unmap theorem applied to a mapped state whose
handle is internally owned, and to a default-constructed state. -/
theorem claim_C7_amended_witness :
    (BMState.unmap ⟨some 100, 4, 4, 3, true⟩).snd.closedFile = true ∧
    BMState.unmap (BMState.initWith false) = (BMState.initWith false, ⟨false, false⟩) :=
  ⟨((claim_C7_amended ⟨some 100, 4, 4, 3, true⟩ MmapV1.init).2.1 (by decide)).2.2,
   (claim_C7_amended (BMState.initWith false) MmapV1.init).1 (by decide)⟩

/-- C8 counterexample: the claim states equality is a content comparison,
never pointer identity.  The two states below have identical visible byte
ranges (same length 1, all memory bytes equal 7) but different data
pointers, and the operator of basic_mmap.ipp, first variant (also of
part_002), returns false for them. -/
theorem claim_C8_counterexample :
    contentIdentical (fun _ => 7) ⟨some 100, 1, 1, 3, false⟩ ⟨some 200, 1, 1, 3, false⟩ ∧
    basicMmapEq ⟨some 100, 1, 1, 3, false⟩ ⟨some 200, 1, 1, 3, false⟩ = false := by
  constructor
  · exact ⟨rfl, fun i _ => rfl⟩
  · decide

/-- C8 amended: the CharTraits variant of the equality operator
(basic_mmap.ipp, second variant) is a content comparison: it returns true
exactly when the two visible byte ranges are bit-identical.  The CharT and
ByteT variants instead compare the data pointer and the size, as the
counterexample shows. -/
theorem claim_C8_amended (mem : Int → Nat) (a b : BMState) :
    traitsMmapEq mem a b = true ↔ contentIdentical mem a b := by
  unfold traitsMmapEq contentIdentical
  simp only [Bool.and_eq_true, beq_iff_eq, traitsCompare_eq_zero_iff mem]

/-- C9 counterexample: the claim states that a requested length of 0
succeeds and leaves is_open() = false and empty() = true.  With a file of
5 bytes, the CharT variant treats 0 as the map-entire-file sentinel
(num_bytes <= map_entire_file), maps the whole file and leaves is_open()
= true and empty() = false. -/
theorem claim_C9_counterexample :
    (BasicMmapC.mapHandle ⟨4096, 0, true, 5, 1000, 7⟩ (BMState.initWith false) 3 0 0).snd = none ∧
    (BasicMmapC.mapHandle ⟨4096, 0, true, 5, 1000, 7⟩ (BMState.initWith false) 3 0 0).fst.is_open = true ∧
    (BasicMmapC.mapHandle ⟨4096, 0, true, 5, 1000, 7⟩ (BMState.initWith false) 3 0 0).fst.empty = false ∧
    (BasicMmapC.mapHandle ⟨4096, 0, true, 5, 1000, 7⟩ (BMState.initWith false) 3 0 0).fst.length_ = 5 := by
  decide

/-- C9 amended: a requested length of 0 is exactly the map_entire_file
sentinel: the call is identical to a sentinel call, it does not fail on a
valid file when the OS mapping succeeds, and it maps the entire file, so
afterwards length() = file_size, is_open() = true, and empty() holds only
for a file of size 0. -/
theorem claim_C9_amended (env : Env) (s : BMState) (handle offset : Int)
    (hh : handle ≠ INVALID_HANDLE_VALUE) (hq : env.fstatOk = true)
    (hm : env.mmapRet ≠ -1) :
    BasicMmapC.mapHandle env s handle offset 0 =
      BasicMmapC.mapHandle env s handle offset map_entire_file ∧
    (BasicMmapC.mapHandle env s handle offset 0).snd = none ∧
    (BasicMmapC.mapHandle env s handle offset 0).fst.length_ = env.stSize ∧
    (BasicMmapC.mapHandle env s handle offset 0).fst.is_open = true ∧
    ((BasicMmapC.mapHandle env s handle offset 0).fst.empty = true ↔
      env.stSize = 0) := by
  have hrun : BasicMmapC.mapHandle env s handle offset 0 =
      ({ s with data_ := some (env.mmapRet + offset - alignDown env.pageSize offset),
                length_ := env.stSize,
                mapped_length_ := offset - alignDown env.pageSize offset + env.stSize,
                file_handle_ := handle, is_handle_internal_ := false }, none) := by
    unfold BasicMmapC.mapHandle query_file_size BasicMmapC.mapImpl
    simp [hh, hq, hm, map_entire_file]
  refine ⟨rfl, ?_, ?_, ?_, ?_⟩
  · rw [hrun]
  · rw [hrun]
  · rw [hrun]
    simp only [BMState.is_open, bne_iff_ne, ne_eq]
    exact hh
  · rw [hrun]
    simp [BMState.empty]

/-- C9 witness: the amended zero-length theorem applied to a file of 5
bytes with a valid handle 3 and a successful mapping at address 1000. -/
theorem claim_C9_amended_witness :
    BasicMmapC.mapHandle ⟨4096, 0, true, 5, 1000, 7⟩ (BMState.initWith false) 3 0 0 =
      BasicMmapC.mapHandle ⟨4096, 0, true, 5, 1000, 7⟩ (BMState.initWith false) 3 0 map_entire_file ∧
    (BasicMmapC.mapHandle ⟨4096, 0, true, 5, 1000, 7⟩ (BMState.initWith false) 3 0 0).snd = none ∧
    (BasicMmapC.mapHandle ⟨4096, 0, true, 5, 1000, 7⟩ (BMState.initWith false) 3 0 0).fst.length_ =
      Env.stSize ⟨4096, 0, true, 5, 1000, 7⟩ ∧
    (BasicMmapC.mapHandle ⟨4096, 0, true, 5, 1000, 7⟩ (BMState.initWith false) 3 0 0).fst.is_open = true ∧
    ((BasicMmapC.mapHandle ⟨4096, 0, true, 5, 1000, 7⟩ (BMState.initWith false) 3 0 0).fst.empty = true ↔
      Env.stSize ⟨4096, 0, true, 5, 1000, 7⟩ = 0) :=
  claim_C9_amended ⟨4096, 0, true, 5, 1000, 7⟩ (BMState.initWith false) 3 0
    (by decide) rfl (by decide)

/-- C10 counterexample: the claim states that the path overload invoked on
an already open instance returns with the error output cleared.  The
detail::mmap of mmap_impl.ipp leaves the caller-supplied error_code
untouched: invoked on an open instance with a set incoming error, the
error stays set. -/
theorem claim_C10_counterexample :
    (⟨some 100, 1, 1, 3⟩ : MmapV1).is_open = true ∧
    MmapV1.mapPath ⟨4096, 0, true, 4, 1000, 7⟩ ⟨some 100, 1, 1, 3⟩ pathA 0 1
        (some .bad_file_descriptor) =
      (⟨some 100, 1, 1, 3⟩, some .bad_file_descriptor) := by
  decide

/-- C10 amended: invoked on an already open instance, the path overload
performs no remapping, opens no file and leaves every field unchanged; the
CharT variant additionally clears the error (reporting success) provided
the path is non-empty, while the detail::mmap variant returns the error
output exactly as it came in. -/
theorem claim_C10_amended (env : Env) (s : BMState) (t : MmapV1)
    (path : String) (offset num_bytes : Int) (errIn : ErrorCode)
    (hs : s.is_open = true) (ht : t.is_open = true)
    (hp : path.isEmpty = false) :
    BasicMmapC.mapPath env s path offset num_bytes = (s, none) ∧
    MmapV1.mapPath env t path offset num_bytes errIn = (t, errIn) := by
  constructor
  · unfold BasicMmapC.mapPath
    simp only [hp, Bool.false_eq_true, if_false, hs, Bool.not_true, if_true]
  · unfold MmapV1.mapPath
    simp only [ht, Bool.not_true, Bool.and_false, Bool.false_eq_true, if_false]

/-- C10 witness: the amended theorem applied to concrete open states of
both variants with a non-empty path and a set incoming error. -/
theorem claim_C10_amended_witness :
    BasicMmapC.mapPath ⟨4096, 0, true, 4, 1000, 7⟩ ⟨some 100, 1, 1, 3, false⟩
        pathA 0 1 = (⟨some 100, 1, 1, 3, false⟩, none) ∧
    MmapV1.mapPath ⟨4096, 0, true, 4, 1000, 7⟩ ⟨some 100, 1, 1, 3⟩ pathA 0 1
        (some .invalid_argument) = (⟨some 100, 1, 1, 3⟩, some .invalid_argument) :=
  claim_C10_amended ⟨4096, 0, true, 4, 1000, 7⟩ ⟨some 100, 1, 1, 3, false⟩
    ⟨some 100, 1, 1, 3⟩ pathA 0 1 (some .invalid_argument)
    (by decide) (by decide) (by decide)

end Mio
